import Mathlib

/-!
Verification development for the immo-tools timeline-analysis core
(`src/lib/location/utils.ts` and `src/lib/location/simple-analyzer.ts`).

Shallow embedding conventions:
* JavaScript numbers are modelled as exact rationals (`ℚ`); machine floating
  point rounding is outside the model.
* The transcendental haversine formula (`Math.sin`, `Math.atan2`, ...) is not
  computable over exact reals, so the great-circle distance function is an
  explicit parameter `hav : HavFn` of every definition that uses it; all
  theorems quantify over it and therefore hold for the actual haversine.
* The external routing lookup (`calculateRoute`, a network call living in
  `routing.ts`) is likewise a parameter `route : RouteFn`; its three observable
  outcomes (success with a distance in meters, explicit error object carrying a
  `message` field, thrown exception) are reified in `RouteResult`.
* `Map<string, number>` is modelled as `Cache := String → Option ℚ`.
* `Set<string>` is modelled as a `List String` queried with `contains`.
* JavaScript `Date` handling is modelled for UTC ISO-8601 timestamps, the
  format of real timeline exports (see `toIsoDatePart` / `getFullYear`).
-/

/-- `Coordinates` from `utils.ts`: a latitude/longitude pair in decimal
degrees. -/
structure Coordinates where
  lat : ℚ
  lon : ℚ
deriving DecidableEq, Repr

/-- `RelevantLocation` from `utils.ts`: a named business location with a
match radius. -/
structure RelevantLocation where
  name : String
  lat : ℚ
  lon : ℚ
  radius_km : ℚ
  address : String
  travelReason : Option String
deriving DecidableEq, Repr

/-- `HomeLocation` from `utils.ts`. -/
structure HomeLocation where
  name : String
  lat : ℚ
  lon : ℚ
  address : String
deriving DecidableEq, Repr

/-- `BusinessVisit` from `utils.ts`, restricted to the fields the analyzer
actually writes (`date`, `businessLocation`, `homeLocation`, `distanceKm`,
`travelReason`, `taxDeductibleCosts`); the `route*` optional fields are never
set by `simple-analyzer.ts`. -/
structure BusinessVisit where
  date : String
  businessLocation : RelevantLocation
  homeLocation : HomeLocation
  distanceKm : ℚ
  travelReason : Option String
  taxDeductibleCosts : ℚ
deriving DecidableEq, Repr

/-- `visit.topCandidate.placeLocation` of a timeline segment. -/
structure PlaceLocation where
  latLng : Option String
deriving DecidableEq, Repr

/-- `visit.topCandidate` of a timeline segment. -/
structure TopCandidate where
  placeLocation : Option PlaceLocation
deriving DecidableEq, Repr

/-- `visit` of a timeline segment. -/
structure SegVisit where
  topCandidate : Option TopCandidate
deriving DecidableEq, Repr

/-- `activity.start` / `activity.end` of a timeline segment. -/
structure ActivityPoint where
  latLng : Option String
deriving DecidableEq, Repr

/-- `activity` of a timeline segment (`start` and `end` coordinate slots). -/
structure SegActivity where
  start : Option ActivityPoint
  «end» : Option ActivityPoint
deriving DecidableEq, Repr

/-- One entry of `timelinePath`. -/
structure PathPoint where
  point : Option String
deriving DecidableEq, Repr

/-- `TimelineSegment` from `utils.ts` / the `semanticSegments` element shape of
`simple-analyzer.ts`: every field is optional. -/
structure TimelineSegment where
  startTime : Option String
  endTime : Option String
  visit : Option SegVisit
  activity : Option SegActivity
  timelinePath : Option (List PathPoint)
deriving DecidableEq, Repr

/-- One element of the legacy `timelineObjects` list. -/
structure TimelineObject where
  timelineSegments : Option (List TimelineSegment)
deriving DecidableEq, Repr

/-- `TimelineData` from `simple-analyzer.ts`: the two known export shapes,
both optional. -/
structure TimelineData where
  semanticSegments : Option (List TimelineSegment)
  timelineObjects : Option (List TimelineObject)
deriving DecidableEq, Repr

/-- `RouteProfile` is a string union in `routing.ts`; modelled as `String`. -/
def RouteProfile : Type := String

/-- Observable outcomes of one `calculateRoute` call as `preCalculateDistances`
distinguishes them: a result object with a `message` field (explicit error), a
successful result with a distance in meters, or a thrown exception. -/
inductive RouteResult where
  | errorResult (message : String)
  | ok (distanceMeters : ℚ)
  | thrown
deriving DecidableEq, Repr

/-- The external routing lookup `calculateRoute(from, to, profile)` from
`routing.ts`, abstracted as a pure function parameter. -/
def RouteFn : Type := Coordinates → Coordinates → String → RouteResult

/-- The great-circle distance function `haversine(lat1, lon1, lat2, lon2)`
from `utils.ts`, abstracted as a function parameter (its body is built from
transcendental floating-point operations, which the rational model treats as
an oracle). -/
def HavFn : Type := ℚ → ℚ → ℚ → ℚ → ℚ

/-- `BusinessAnalyzerConfig` from `simple-analyzer.ts`. -/
structure BusinessAnalyzerConfig where
  targetYear : Int
  businessLocations : List RelevantLocation
  homeLocation : HomeLocation
  routeProfile : Option String
  costPerKm : Option ℚ

/-- The analyzer's `distanceCache : Map<string, number>` modelled as a lookup
function. -/
def Cache : Type := String → Option ℚ

/-- The empty cache (a fresh / cleared `Map`). -/
def emptyCache : Cache := fun _ => none

/-- `Map.set`: point update of the cache. -/
def cacheSet (cache : Cache) (key : String) (value : ℚ) : Cache :=
  fun k => if k = key then some value else cache k

/-! ## Coordinate parser (`parseCoordinateString`, `utils.ts` lines 83-112)

The two regular expressions `/latE7:(-?\d+)/`, `/lngE7:(-?\d+)/` and
`/(-?\d+\.?\d*)°,\s*(-?\d+\.?\d*)°/` are modelled by explicit scanners over
the character list. A JS regex `match` finds the leftmost position at which
the pattern matches; for these patterns greedy matching without backtracking
is equivalent (after a maximal digit run the next pattern character can never
match a digit), so the scanners try each start position left to right and
match greedily there. `parseInt` / `parseFloat` on a captured `-?\d+(\.\d*)?`
group are modelled exactly over `ℚ`. -/

/-- Numeric value of a digit run (most significant first). -/
def digitsToNat (ds : List Char) : Nat :=
  ds.foldl (fun n c => n * 10 + (c.toNat - 48)) 0

/-- Split a maximal leading digit run off a character list. -/
def takeDigits (l : List Char) : List Char × List Char :=
  (l.takeWhile Char.isDigit, l.dropWhile Char.isDigit)

/-- Match `-?\d+` at the head of the list: the optional sign, then a maximal
nonempty digit run; returns its value and the rest. -/
def matchSignedInt (l : List Char) : Option (Int × List Char) :=
  match l with
  | '-' :: rest =>
    let p := takeDigits rest
    if p.1.isEmpty then none else some (-(digitsToNat p.1 : Int), p.2)
  | _ =>
    let p := takeDigits l
    if p.1.isEmpty then none else some ((digitsToNat p.1 : Int), p.2)

/-- If `label` is a literal prefix of `l`, return what follows it. -/
def dropLabel : List Char → List Char → Option (List Char)
  | [], l => some l
  | _ :: _, [] => none
  | p :: ps, c :: cs => if p = c then dropLabel ps cs else none

/-- Leftmost match of `label` followed by `-?\d+` (the E7 regexes): the value
of the first capture group. -/
def searchLabelledInt (label : List Char) : List Char → Option Int
  | [] => none
  | c :: rest =>
    match dropLabel label (c :: rest) with
    | some afterLabel =>
      match matchSignedInt afterLabel with
      | some p => some p.1
      | none => searchLabelledInt label rest
    | none => searchLabelledInt label rest

/-- The literal `latE7:` of the first E7 regex. -/
def latE7Label : List Char := ['l', 'a', 't', 'E', '7', ':']

/-- The literal `lngE7:` of the second E7 regex. -/
def lngE7Label : List Char := ['l', 'n', 'g', 'E', '7', ':']

/-- Match `-?\d+\.?\d*` at the head of the list and return its `parseFloat`
value (exact over `ℚ`) and the rest. -/
def matchDecimalNumber (l : List Char) : Option (ℚ × List Char) :=
  let signAndRest : ℚ × List Char :=
    match l with
    | '-' :: rest => (-1, rest)
    | _ => (1, l)
  let intPart := takeDigits signAndRest.2
  if intPart.1.isEmpty then none
  else
    let fracAndRest : List Char × List Char :=
      match intPart.2 with
      | '.' :: rest => takeDigits rest
      | _ => ([], intPart.2)
    let value : ℚ :=
      signAndRest.1 *
        ((digitsToNat intPart.1 : ℚ) +
          (digitsToNat fracAndRest.1 : ℚ) / ((10 : ℚ) ^ fracAndRest.1.length))
    some (value, fracAndRest.2)

/-- Match the full decimal regex `(-?\d+\.?\d*)°,\s*(-?\d+\.?\d*)°` anchored
at the head of the list; returns the two captured values. -/
def matchDecimalPairAt (l : List Char) : Option (ℚ × ℚ) :=
  match matchDecimalNumber l with
  | none => none
  | some latp =>
    match latp.2 with
    | '°' :: ',' :: rest =>
      let afterSpaces := rest.dropWhile Char.isWhitespace
      match matchDecimalNumber afterSpaces with
      | some lonp =>
        match lonp.2 with
        | '°' :: _ => some (latp.1, lonp.1)
        | _ => none
      | none => none
    | _ => none

/-- Leftmost match of the decimal-degree regex. -/
def searchDecimalPair : List Char → Option (ℚ × ℚ)
  | [] => none
  | c :: rest =>
    match matchDecimalPairAt (c :: rest) with
    | some p => some p
    | none => searchDecimalPair rest

/-- `parseCoordinateString` (`utils.ts` lines 83-112): try the E7
scaled-integer encoding first (both labels must match; each captured integer
is divided by `1e7`), then the decimal-degree encoding; otherwise `null`.
The `isNaN` guard of the source can never fire because the captured group
always denotes a number, and the `try/catch` wrapper is modelled by totality. -/
def parseCoordinateString (coordStr : String) : Option Coordinates :=
  let chars := coordStr.toList
  match searchLabelledInt latE7Label chars, searchLabelledInt lngE7Label chars with
  | some latE7, some lngE7 =>
    some { lat := (latE7 : ℚ) / 10000000, lon := (lngE7 : ℚ) / 10000000 }
  | _, _ =>
    match searchDecimalPair chars with
    | some p => some { lat := p.1, lon := p.2 }
    | none => none

/-! ## Location matcher (`findMatchingBusinessLocation`, `utils.ts` 128-147) -/

/-- `findMatchingBusinessLocation(lat, lon, locations)`: walk the candidate
list in order and return the first location whose distance
`haversine(location.lat, location.lon, lat, lon)` is at most its
`radius_km`; `null` when none qualifies. -/
def findMatchingBusinessLocation (hav : HavFn) (lat lon : ℚ) :
    List RelevantLocation → Option RelevantLocation
  | [] => none
  | location :: rest =>
    let dist := hav location.lat location.lon lat lon
    if dist ≤ location.radius_km then some location
    else findMatchingBusinessLocation hav lat lon rest

/-! ## Distance resolver (`simple-analyzer.ts` lines 69-158) -/

/-- The fixed default travel profile string of `preCalculateDistances`. -/
def defaultRouteProfile : String := "driving-car"

/-- Did this `calculateRoute` outcome fail (explicit error result carrying a
`message` field, or a thrown exception)? -/
def routeFailed : RouteResult → Bool
  | RouteResult.errorResult _ => true
  | RouteResult.ok _ => false
  | RouteResult.thrown => true

/-- One iteration of the `preCalculateDistances` loop for a single business
location: on success cache `meters / 1000`; on an explicit error result or a
thrown exception cache the haversine straight-line distance from home instead
(the failure is consumed here and never propagated). The 100 ms rate-limit
delay has no observable effect in the model. -/
def preCalcStep (hav : HavFn) (route : RouteFn) (cfg : BusinessAnalyzerConfig)
    (routeProfile : String) (cache : Cache) (businessLocation : RelevantLocation) : Cache :=
  match route { lat := cfg.homeLocation.lat, lon := cfg.homeLocation.lon }
      { lat := businessLocation.lat, lon := businessLocation.lon } routeProfile with
  | RouteResult.ok meters =>
    cacheSet cache businessLocation.name (meters / 1000)
  | RouteResult.errorResult _ =>
    cacheSet cache businessLocation.name
      (hav cfg.homeLocation.lat cfg.homeLocation.lon businessLocation.lat businessLocation.lon)
  | RouteResult.thrown =>
    cacheSet cache businessLocation.name
      (hav cfg.homeLocation.lat cfg.homeLocation.lon businessLocation.lat businessLocation.lon)

/-- `preCalculateDistances` (`simple-analyzer.ts` lines 69-123): clear the
cache, then resolve every business location in list order. -/
def preCalculateDistances (hav : HavFn) (route : RouteFn)
    (cfg : BusinessAnalyzerConfig) : Cache :=
  let routeProfile := cfg.routeProfile.getD defaultRouteProfile
  cfg.businessLocations.foldl (preCalcStep hav route cfg routeProfile) emptyCache

/-- `getCachedDistance` (`simple-analyzer.ts` lines 128-158): return the
cached value when present; otherwise look the name up in the configured
business-location list, compute the haversine fallback, cache it and return
it; for a completely unknown name return `0`. Returns the value together
with the (possibly updated) cache. -/
def getCachedDistance (hav : HavFn) (cfg : BusinessAnalyzerConfig)
    (cache : Cache) (businessLocationName : String) : ℚ × Cache :=
  match cache businessLocationName with
  | some cachedDistance => (cachedDistance, cache)
  | none =>
    match cfg.businessLocations.find? (fun loc => loc.name == businessLocationName) with
    | some location =>
      let fallbackDistance :=
        hav cfg.homeLocation.lat cfg.homeLocation.lon location.lat location.lon
      (fallbackDistance, cacheSet cache businessLocationName fallbackDistance)
    | none => (0, cache)

/-! ## Segment extraction and dates (`simple-analyzer.ts` lines 281-349) -/

/-- `extractCoordinatesFromSegment` (`simple-analyzer.ts` lines 281-326):
probe, in order, the visit place coordinate, the activity start and end
coordinates, and every timeline-path point, keeping each string that
`parseCoordinateString` accepts. -/
def extractCoordinatesFromSegment (segment : TimelineSegment) : List Coordinates :=
  let visitCoord : List Coordinates :=
    match segment.visit.bind SegVisit.topCandidate |>.bind TopCandidate.placeLocation |>.bind PlaceLocation.latLng with
    | some s => (parseCoordinateString s).toList
    | none => []
  let startCoord : List Coordinates :=
    match segment.activity.bind SegActivity.start |>.bind ActivityPoint.latLng with
    | some s => (parseCoordinateString s).toList
    | none => []
  let endCoord : List Coordinates :=
    match segment.activity.bind SegActivity.«end» |>.bind ActivityPoint.latLng with
    | some s => (parseCoordinateString s).toList
    | none => []
  let pathCoords : List Coordinates :=
    match segment.timelinePath with
    | some points => points.foldl
        (fun acc p =>
          match p.point.bind (fun s => parseCoordinateString s) with
          | some c => acc ++ [c]
          | none => acc) []
    | none => []
  visitCoord ++ startCoord ++ endCoord ++ pathCoords

/-- Is `s` a plausible `YYYY-MM-DD` calendar-day string (four digits, dash,
two digits in 01..12, dash, two digits in 01..31)? This is the date shape
`Date.prototype.toISOString` produces and `Date` parsing accepts. -/
def validYMD (s : String) : Bool :=
  match s.toList with
  | [y1, y2, y3, y4, h1, m1, m2, h2, d1, d2] =>
    y1.isDigit && y2.isDigit && y3.isDigit && y4.isDigit &&
    h1 == '-' && h2 == '-' &&
    m1.isDigit && m2.isDigit && d1.isDigit && d2.isDigit &&
    (decide (1 ≤ (m1.toNat - 48) * 10 + (m2.toNat - 48)) &&
     decide ((m1.toNat - 48) * 10 + (m2.toNat - 48) ≤ 12)) &&
    (decide (1 ≤ (d1.toNat - 48) * 10 + (d2.toNat - 48)) &&
     decide ((d1.toNat - 48) * 10 + (d2.toNat - 48) ≤ 31))
  | _ => false

/-- Modelled JS: `new Date(t).toISOString().split('T')[0]` for a UTC ISO-8601
timestamp `t` (the format of timeline exports): the `YYYY-MM-DD` part before
the `T`; `none` models an invalid date, whose `toISOString` throws (caught by
the source, which returns `null`). -/
def toIsoDatePart (t : String) : Option String :=
  let dayPart := String.mk (t.toList.takeWhile (fun c => c != 'T'))
  if validYMD dayPart then some dayPart else none

/-- Modelled JS: `new Date(dateStr).getFullYear()` in a UTC environment for a
`YYYY-MM-DD` string: its leading four-digit year; `none` models the `NaN` of
an invalid date (which compares unequal to every year). -/
def getFullYear (dateStr : String) : Option Int :=
  if validYMD dateStr then
    match dateStr.toList with
    | y1 :: y2 :: y3 :: y4 :: _ =>
      some (((y1.toNat - 48) * 1000 + (y2.toNat - 48) * 100 +
             (y3.toNat - 48) * 10 + (y4.toNat - 48) : Nat) : Int)
    | _ => none
  else none

/-- JS string truthiness: `undefined` and the empty string are falsy. -/
def jsTruthyString : Option String → Option String
  | some s => if s == "" then none else some s
  | none => none

/-- `extractDateFromSegment` (`simple-analyzer.ts` lines 331-341):
`segment.startTime || segment.endTime`, then the ISO date part of that
timestamp; `null` when neither timestamp is truthy or the date is invalid. -/
def extractDateFromSegment (segment : TimelineSegment) : Option String :=
  match (jsTruthyString segment.startTime).orElse (fun _ => jsTruthyString segment.endTime) with
  | some timestamp => toIsoDatePart timestamp
  | none => none

/-- `isTargetYear` (`simple-analyzer.ts` lines 346-349): the year of the date
string equals the configured target year. -/
def isTargetYear (cfg : BusinessAnalyzerConfig) (dateStr : String) : Bool :=
  decide (getFullYear dateStr = some cfg.targetYear)

/-! ## The analysis loop (`analyzeTimeline`, `simple-analyzer.ts` 163-276) -/

/-- Shape normalization of `analyzeTimeline` (lines 184-201): prefer a
non-empty `semanticSegments` list; otherwise flatten a non-empty
`timelineObjects` list; otherwise no supported data (`none`, upon which the
analyzer returns the empty visit list). -/
def gatherSegments (timelineData : TimelineData) : Option (List TimelineSegment) :=
  match timelineData.semanticSegments with
  | some segs =>
    if segs.isEmpty then gatherLegacySegments timelineData else some segs
  | none => gatherLegacySegments timelineData
where
  /-- The `else if (timelineData.timelineObjects ...)` branch: concatenate the
  `timelineSegments` of every timeline object. -/
  gatherLegacySegments (timelineData : TimelineData) : Option (List TimelineSegment) :=
    match timelineData.timelineObjects with
    | some objects =>
      if objects.isEmpty then none
      else some (objects.foldl
        (fun acc o => acc ++ o.timelineSegments.getD []) [])
    | none => none

/-- Loop state of `analyzeTimeline`: the distance cache (which
`getCachedDistance` may update), the `visitedDates` set and the accumulated
`visits` list. -/
structure AnalyzeState where
  cache : Cache
  visitedDates : List String
  visits : List BusinessVisit

/-- The body of the `for (const segment of segments)` loop of
`analyzeTimeline` (lines 205-265): skip segments without coordinates; find
the first coordinate matching a business location (the inner loop `break`s on
the first match); when the segment has a date inside the target year that no
earlier visit used, build the visit from the cached distance and
`distance * costPerKm * 2` and mark the day as used. -/
def analyzeStep (hav : HavFn) (cfg : BusinessAnalyzerConfig)
    (st : AnalyzeState) (segment : TimelineSegment) : AnalyzeState :=
  let coordinates := extractCoordinatesFromSegment segment
  if coordinates.isEmpty then st
  else
    let date := extractDateFromSegment segment
    let isInTargetYear := (date.map (isTargetYear cfg)).getD false
    match coordinates.findSome?
        (fun coord => findMatchingBusinessLocation hav coord.lat coord.lon cfg.businessLocations) with
    | none => st
    | some matchingLocation =>
      match date with
      | some d =>
        if isInTargetYear && !(st.visitedDates.contains d) then
          let r := getCachedDistance hav cfg st.cache matchingLocation.name
          let costPerKm := cfg.costPerKm.getD 0
          { cache := r.2,
            visitedDates := d :: st.visitedDates,
            visits := st.visits ++
              [{ date := d,
                 businessLocation := matchingLocation,
                 homeLocation := cfg.homeLocation,
                 distanceKm := r.1,
                 travelReason := matchingLocation.travelReason,
                 taxDeductibleCosts := r.1 * costPerKm * 2 }] }
        else st
      | none => st

/-- Insert a visit into a date-sorted visit list (model of the final
`visits.sort((a, b) => new Date(a.date).getTime() - new Date(b.date).getTime())`:
for `YYYY-MM-DD` strings the numeric timestamp order is the string order). -/
def insertByDate (v : BusinessVisit) : List BusinessVisit → List BusinessVisit
  | [] => [v]
  | w :: ws => if v.date < w.date then v :: w :: ws else w :: insertByDate v ws

/-- Sort visits ascending by date. -/
def sortByDate : List BusinessVisit → List BusinessVisit
  | [] => []
  | v :: vs => insertByDate v (sortByDate vs)

/-- `analyzeTimeline` (`simple-analyzer.ts` lines 163-276): rebuild the
distance cache, normalize the export shape (returning `[]` when no supported
shape is present), run the matching loop over all segments in input order,
and sort the visits by date. -/
def analyzeTimeline (hav : HavFn) (route : RouteFn)
    (cfg : BusinessAnalyzerConfig) (timelineData : TimelineData) : List BusinessVisit :=
  let cache := preCalculateDistances hav route cfg
  match gatherSegments timelineData with
  | none => []
  | some segments =>
    sortByDate (segments.foldl (analyzeStep hav cfg)
      { cache := cache, visitedDates := [], visits := [] }).visits

/-! ## Specification-side derived notions

`segMatch` is the visit a single segment generates when its day is still
free: the first matching coordinate's location, provided the segment has a
date inside the target year. `dedupByDate` / `seenAfter` describe the
date-deduplication the `visitedDates` set performs. These are used to state
and prove the characterization of the analysis loop. -/

/-- The visit one segment would contribute, ignoring day deduplication:
`none` when no coordinate matches, the segment has no date, or the date is
outside the target year. -/
def segMatch (hav : HavFn) (cfg : BusinessAnalyzerConfig) (cache : Cache)
    (segment : TimelineSegment) : Option BusinessVisit :=
  match (extractCoordinatesFromSegment segment).findSome?
      (fun coord => findMatchingBusinessLocation hav coord.lat coord.lon cfg.businessLocations) with
  | none => none
  | some matchingLocation =>
    match extractDateFromSegment segment with
    | some d =>
      if isTargetYear cfg d then
        some { date := d,
               businessLocation := matchingLocation,
               homeLocation := cfg.homeLocation,
               distanceKm := (getCachedDistance hav cfg cache matchingLocation.name).1,
               travelReason := matchingLocation.travelReason,
               taxDeductibleCosts :=
                 (getCachedDistance hav cfg cache matchingLocation.name).1 *
                   cfg.costPerKm.getD 0 * 2 }
      else none
    | none => none

/-- Keep only the first visit of each calendar day (days in `seen` are
already taken). -/
def dedupByDate (seen : List String) : List BusinessVisit → List BusinessVisit
  | [] => []
  | v :: vs =>
    if seen.contains v.date then dedupByDate seen vs
    else v :: dedupByDate (v.date :: seen) vs

/-- The set of used days after processing a visit stream. -/
def seenAfter (seen : List String) : List BusinessVisit → List String
  | [] => seen
  | v :: vs =>
    if seen.contains v.date then seenAfter seen vs
    else seenAfter (v.date :: seen) vs

/-- The name of witness location `locA`. -/
def nameA : String := "A"

/-- The name of witness location `locB`. -/
def nameB : String := "B"

/-- A name owned by no witness location. -/
def nameZ : String := "Z"

/-- The derived date of `seg3`. -/
def date2023 : String := "2023-03-15"

/-- The error message of the failing routing stub. -/
def noRouteMsg : String := "no route"

/-! ## Concrete instantiation data for witnesses

A small deterministic scenario: an oracle distance function returning the
probe latitude, a routing stub always succeeding with 5000 meters, two
business locations of radii 10 and 100 around the same center, and three
one-coordinate segments (two on 2024-03-15, one on 2023-03-15). -/

/-- Witness distance oracle: the distance only depends on the probe latitude
(third argument). -/
def havW : HavFn := fun _ _ lat _ => lat

/-- Witness routing stub: every route resolves to 5000 meters. -/
def routeW : RouteFn := fun _ _ _ => RouteResult.ok 5000

/-- Witness home location. -/
def homeW : HomeLocation := { name := "Home", lat := 0, lon := 0, address := "" }

/-- Witness business location with match radius 10. -/
def locA : RelevantLocation :=
  { name := "A", lat := 0, lon := 0, radius_km := 10, address := "", travelReason := none }

/-- Witness business location with match radius 100. -/
def locB : RelevantLocation :=
  { name := "B", lat := 0, lon := 0, radius_km := 100, address := "", travelReason := none }

/-- Witness analyzer configuration: target year 2024, cost 3 per km. -/
def cfgW : BusinessAnalyzerConfig :=
  { targetYear := 2024, businessLocations := [locA, locB], homeLocation := homeW,
    routeProfile := none, costPerKm := some 3 }

/-- Witness coordinate string at latitude 50 (matches only `locB`). -/
def coordStr50 : String := "50.0°, 1.0°"

/-- Witness coordinate string at latitude 5 (matches `locA` first). -/
def coordStr5 : String := "5.0°, 2.0°"

/-- Witness segment dated 2024-03-15 at latitude 50. -/
def seg1 : TimelineSegment :=
  { startTime := some "2024-03-15T10:00:00Z", endTime := none,
    visit := some { topCandidate := some { placeLocation := some { latLng := some coordStr50 } } },
    activity := none, timelinePath := none }

/-- Witness segment also dated 2024-03-15, at latitude 5 (same day as
`seg1`, so it is deduplicated away). -/
def seg2 : TimelineSegment :=
  { startTime := some "2024-03-15T12:00:00Z", endTime := none,
    visit := some { topCandidate := some { placeLocation := some { latLng := some coordStr5 } } },
    activity := none, timelinePath := none }

/-- Witness segment dated 2023-03-15 (outside the target year). -/
def seg3 : TimelineSegment :=
  { startTime := some "2023-03-15T12:00:00Z", endTime := none,
    visit := some { topCandidate := some { placeLocation := some { latLng := some coordStr5 } } },
    activity := none, timelinePath := none }

/-- Witness export in the `semanticSegments` shape. -/
def tdW : TimelineData :=
  { semanticSegments := some [seg1, seg2, seg3], timelineObjects := none }

/-- The segments `gatherSegments` extracts from `tdW`. -/
def segsW : List TimelineSegment := [seg1, seg2, seg3]

/-- The distance cache `analyzeTimeline` builds for `cfgW`. -/
def cacheW : Cache := preCalculateDistances havW routeW cfgW

/-- The single visit the witness scenario produces: 2024-03-15 at `locB`
(the first segment of that day wins), distance 5 km, cost 5 * 3 * 2. -/
def visW : BusinessVisit :=
  { date := "2024-03-15", businessLocation := locB, homeLocation := homeW,
    distanceKm := 5, travelReason := none, taxDeductibleCosts := 30 }

/-- An export with neither recognized key (the `{}` document). -/
def tdEmpty : TimelineData := { semanticSegments := none, timelineObjects := none }

/-- Witness routing stub for the fallback claim: routes to `locD`'s latitude
fail with an explicit error result, all others succeed with 7000 meters. -/
def routeF : RouteFn := fun _ dest _ =>
  if dest.lat = 4 then RouteResult.errorResult noRouteMsg else RouteResult.ok 7000

/-- Business location whose route lookup succeeds. -/
def locC : RelevantLocation :=
  { name := "C", lat := 3, lon := 3, radius_km := 1, address := "", travelReason := none }

/-- Business location whose route lookup fails (latitude 4). -/
def locD : RelevantLocation :=
  { name := "D", lat := 4, lon := 4, radius_km := 1, address := "", travelReason := none }

/-- Configuration for the fallback witness. -/
def cfgF : BusinessAnalyzerConfig :=
  { targetYear := 2024, businessLocations := [locC, locD], homeLocation := homeW,
    routeProfile := none, costPerKm := none }

/-- A cache holding only the name `A` (for the cache-read witnesses). -/
def cacheOneA : Cache := cacheSet emptyCache nameA 5

/-- The E7-encoded test string of the parser round-trip claim. -/
def e7String : String := "latE7:525000000,lngE7:134000000"

/-- The decimal-degree test string of the parser round-trip claim. -/
def decimalString : String := "52.5000°, 13.4000°"

/-- A string matching both encodings, to exhibit the E7-first priority. -/
def bothString : String := "latE7:10000000,lngE7:20000000 3.0°, 4.0°"

/-- A decimal string far outside the valid coordinate ranges. -/
def outOfRangeString : String := "999.0°, 500.0°"

/-- The value `preCalculateDistances` resolves for one location: the routed
meters over 1000 on success, the haversine fallback on failure. -/
def resolvedDistance (hav : HavFn) (route : RouteFn) (cfg : BusinessAnalyzerConfig)
    (profile : String) (loc : RelevantLocation) : ℚ :=
  match route { lat := cfg.homeLocation.lat, lon := cfg.homeLocation.lon }
      { lat := loc.lat, lon := loc.lon } profile with
  | RouteResult.ok meters => meters / 1000
  | RouteResult.errorResult _ =>
    hav cfg.homeLocation.lat cfg.homeLocation.lon loc.lat loc.lon
  | RouteResult.thrown =>
    hav cfg.homeLocation.lat cfg.homeLocation.lon loc.lat loc.lon

/-! ## Helper lemmas -/

theorem cacheSet_self (cache : Cache) (k : String) (v : ℚ) :
    cacheSet cache k v k = some v := by
  simp [cacheSet]

theorem cacheSet_ne (cache : Cache) (k k' : String) (v : ℚ) (h : k' ≠ k) :
    cacheSet cache k v k' = cache k' := by
  simp [cacheSet, h]

theorem findMatching_eq_find (hav : HavFn) (lat lon : ℚ)
    (locations : List RelevantLocation) :
    findMatchingBusinessLocation hav lat lon locations =
      locations.find? (fun loc => decide (hav loc.lat loc.lon lat lon ≤ loc.radius_km)) := by
  induction locations with
  | nil => rfl
  | cons location rest ih =>
    by_cases h : hav location.lat location.lon lat lon ≤ location.radius_km
    · simp [findMatchingBusinessLocation, List.find?, h]
    · simp [findMatchingBusinessLocation, List.find?, h, ih]

theorem findMatching_mem {hav : HavFn} {lat lon : ℚ}
    {locations : List RelevantLocation} {loc : RelevantLocation}
    (h : findMatchingBusinessLocation hav lat lon locations = some loc) :
    loc ∈ locations := by
  induction locations with
  | nil => simp [findMatchingBusinessLocation] at h
  | cons location rest ih =>
    by_cases hd : hav location.lat location.lon lat lon ≤ location.radius_km
    · simp [findMatchingBusinessLocation, hd] at h
      simp [h]
    · simp [findMatchingBusinessLocation, hd] at h
      exact List.mem_cons_of_mem _ (ih h)

theorem getCachedDistance_of_cached {cache : Cache} {name : String} {d : ℚ}
    (hav : HavFn) (cfg : BusinessAnalyzerConfig) (h : cache name = some d) :
    getCachedDistance hav cfg cache name = (d, cache) := by
  simp [getCachedDistance, h]

theorem preCalcStep_lookup_ne (hav : HavFn) (route : RouteFn)
    (cfg : BusinessAnalyzerConfig) (profile : String) (cache : Cache)
    (loc : RelevantLocation) (n : String) (h : n ≠ loc.name) :
    preCalcStep hav route cfg profile cache loc n = cache n := by
  unfold preCalcStep
  cases route { lat := cfg.homeLocation.lat, lon := cfg.homeLocation.lon }
      { lat := loc.lat, lon := loc.lon } profile with
  | errorResult m => exact cacheSet_ne _ _ _ _ h
  | ok meters => exact cacheSet_ne _ _ _ _ h
  | thrown => exact cacheSet_ne _ _ _ _ h

theorem preCalcStep_lookup_self (hav : HavFn) (route : RouteFn)
    (cfg : BusinessAnalyzerConfig) (profile : String) (cache : Cache)
    (loc : RelevantLocation) :
    preCalcStep hav route cfg profile cache loc loc.name =
      some (match route { lat := cfg.homeLocation.lat, lon := cfg.homeLocation.lon }
          { lat := loc.lat, lon := loc.lon } profile with
        | RouteResult.ok meters => meters / 1000
        | RouteResult.errorResult _ =>
          hav cfg.homeLocation.lat cfg.homeLocation.lon loc.lat loc.lon
        | RouteResult.thrown =>
          hav cfg.homeLocation.lat cfg.homeLocation.lon loc.lat loc.lon) := by
  unfold preCalcStep
  cases route { lat := cfg.homeLocation.lat, lon := cfg.homeLocation.lon }
      { lat := loc.lat, lon := loc.lon } profile with
  | errorResult m => exact cacheSet_self _ _ _
  | ok meters => exact cacheSet_self _ _ _
  | thrown => exact cacheSet_self _ _ _

theorem preCalcFold_preserves_isSome (hav : HavFn) (route : RouteFn)
    (cfg : BusinessAnalyzerConfig) (profile : String)
    (locs : List RelevantLocation) (cache : Cache) (n : String)
    (h : (cache n).isSome) :
    ((locs.foldl (preCalcStep hav route cfg profile) cache) n).isSome := by
  induction locs generalizing cache with
  | nil => exact h
  | cons loc rest ih =>
    apply ih
    by_cases hn : n = loc.name
    · subst hn
      rw [preCalcStep_lookup_self]
      rfl
    · rw [preCalcStep_lookup_ne hav route cfg profile cache loc n hn]
      exact h

theorem preCalcFold_isSome (hav : HavFn) (route : RouteFn)
    (cfg : BusinessAnalyzerConfig) (profile : String)
    (locs : List RelevantLocation) (cache : Cache) (loc : RelevantLocation)
    (h : loc ∈ locs) :
    ((locs.foldl (preCalcStep hav route cfg profile) cache) loc.name).isSome := by
  induction locs generalizing cache with
  | nil => cases h
  | cons l rest ih =>
    rw [List.foldl_cons]
    rcases List.mem_cons.mp h with hl | hl
    · subst hl
      apply preCalcFold_preserves_isSome
      rw [preCalcStep_lookup_self]
      rfl
    · exact ih _ hl

theorem preCalculateDistances_isSome (hav : HavFn) (route : RouteFn)
    (cfg : BusinessAnalyzerConfig) (loc : RelevantLocation)
    (h : loc ∈ cfg.businessLocations) :
    ((preCalculateDistances hav route cfg) loc.name).isSome := by
  unfold preCalculateDistances
  exact preCalcFold_isSome hav route cfg _ _ _ loc h

theorem preCalcFold_lookup_not_mem (hav : HavFn) (route : RouteFn)
    (cfg : BusinessAnalyzerConfig) (profile : String)
    (locs : List RelevantLocation) (cache : Cache) (n : String)
    (h : ∀ loc ∈ locs, n ≠ loc.name) :
    (locs.foldl (preCalcStep hav route cfg profile) cache) n = cache n := by
  induction locs generalizing cache with
  | nil => rfl
  | cons l rest ih =>
    rw [List.foldl_cons]
    rw [ih _ (fun loc hl => h loc (List.mem_cons_of_mem _ hl))]
    exact preCalcStep_lookup_ne hav route cfg profile cache l n (h l (List.mem_cons_self _ _))

theorem preCalcFold_lookup_mem (hav : HavFn) (route : RouteFn)
    (cfg : BusinessAnalyzerConfig) (profile : String)
    (locs : List RelevantLocation) (cache : Cache) (loc : RelevantLocation)
    (h : loc ∈ locs) (hnames : locs.Pairwise (fun a b => a.name ≠ b.name)) :
    (locs.foldl (preCalcStep hav route cfg profile) cache) loc.name =
      some (resolvedDistance hav route cfg profile loc) := by
  induction locs generalizing cache with
  | nil => cases h
  | cons l rest ih =>
    rw [List.foldl_cons]
    rcases List.mem_cons.mp h with hl | hl
    · subst hl
      rw [preCalcFold_lookup_not_mem hav route cfg profile rest _ loc.name
        (fun l2 hl2 => (List.pairwise_cons.mp hnames).1 l2 hl2)]
      rw [preCalcStep_lookup_self]
      rfl
    · exact ih _ hl (List.pairwise_cons.mp hnames).2

theorem preCalculateDistances_lookup (hav : HavFn) (route : RouteFn)
    (cfg : BusinessAnalyzerConfig) (loc : RelevantLocation)
    (h : loc ∈ cfg.businessLocations)
    (hnames : cfg.businessLocations.Pairwise (fun a b => a.name ≠ b.name)) :
    (preCalculateDistances hav route cfg) loc.name =
      some (resolvedDistance hav route cfg (cfg.routeProfile.getD defaultRouteProfile) loc) := by
  unfold preCalculateDistances
  exact preCalcFold_lookup_mem hav route cfg _ _ _ loc h hnames

/-! ### Characterizing the analysis loop -/


theorem analyzeStep_characterization (hav : HavFn) (cfg : BusinessAnalyzerConfig)
    (st : AnalyzeState) (segment : TimelineSegment)
    (hcache : ∀ loc ∈ cfg.businessLocations, (st.cache loc.name).isSome) :
    analyzeStep hav cfg st segment =
      match segMatch hav cfg st.cache segment with
      | none => st
      | some v =>
        if st.visitedDates.contains v.date then st
        else { cache := st.cache, visitedDates := v.date :: st.visitedDates,
               visits := st.visits ++ [v] } := by
  by_cases hempty : (extractCoordinatesFromSegment segment).isEmpty
  · have hnil : extractCoordinatesFromSegment segment = [] := by
      simpa [List.isEmpty_iff] using hempty
    simp [analyzeStep, segMatch, hempty, hnil]
  · rcases hfind : (extractCoordinatesFromSegment segment).findSome?
        (fun coord => findMatchingBusinessLocation hav coord.lat coord.lon cfg.businessLocations)
      with _ | matchingLocation
    · simp [analyzeStep, segMatch, hempty, hfind]
    · rcases hdate : extractDateFromSegment segment with _ | d
      · simp [analyzeStep, segMatch, hempty, hfind, hdate]
      · obtain ⟨coord, hcmem, hco⟩ := List.exists_of_findSome?_eq_some hfind
        have hmem : matchingLocation ∈ cfg.businessLocations := findMatching_mem hco
        obtain ⟨dist, hc⟩ := Option.isSome_iff_exists.mp (hcache matchingLocation hmem)
        have hget := getCachedDistance_of_cached hav cfg hc
        by_cases hyear : isTargetYear cfg d
        · by_cases hseen : st.visitedDates.contains d
          · have hseen' : d ∈ st.visitedDates := by simpa using hseen
            simp [analyzeStep, segMatch, hempty, hfind, hdate, hyear, hseen, hseen', hget]
          · have hseen' : ¬ (d ∈ st.visitedDates) := by simpa using hseen
            simp [analyzeStep, segMatch, hempty, hfind, hdate, hyear, hseen, hseen', hget]
        · simp [analyzeStep, segMatch, hempty, hfind, hdate, hyear]

theorem analyzeFold_characterization (hav : HavFn) (cfg : BusinessAnalyzerConfig)
    (segments : List TimelineSegment) (st : AnalyzeState)
    (hcache : ∀ loc ∈ cfg.businessLocations, (st.cache loc.name).isSome) :
    segments.foldl (analyzeStep hav cfg) st =
      { cache := st.cache,
        visitedDates := seenAfter st.visitedDates
          (segments.filterMap (segMatch hav cfg st.cache)),
        visits := st.visits ++ dedupByDate st.visitedDates
          (segments.filterMap (segMatch hav cfg st.cache)) } := by
  induction segments generalizing st with
  | nil => simp [seenAfter, dedupByDate]
  | cons seg rest ih =>
    rw [List.foldl_cons, analyzeStep_characterization hav cfg st seg hcache]
    rcases hm : segMatch hav cfg st.cache seg with _ | v
    · rw [List.filterMap_cons_none hm]
      exact ih st hcache
    · rw [List.filterMap_cons_some hm]
      rcases hseen : st.visitedDates.contains v.date with _ | _
      case false =>
        have hseen' : ¬ (v.date ∈ st.visitedDates) := by simpa using hseen
        simp only [hseen, Bool.false_eq_true, if_false]
        rw [ih { cache := st.cache, visitedDates := v.date :: st.visitedDates,
                 visits := st.visits ++ [v] } hcache]
        simp [dedupByDate, seenAfter, hseen, hseen']
      case true =>
        have hseen' : v.date ∈ st.visitedDates := by simpa using hseen
        simp only [hseen, if_true]
        rw [ih st hcache]
        simp [dedupByDate, seenAfter, hseen, hseen']

theorem mem_dedupByDate {seen : List String} {l : List BusinessVisit}
    {v : BusinessVisit} (h : v ∈ dedupByDate seen l) :
    ¬ (v.date ∈ seen) ∧ l.find? (fun w => w.date == v.date) = some v := by
  induction l generalizing seen with
  | nil => simp [dedupByDate] at h
  | cons w ws ih =>
    by_cases hw : w.date ∈ seen
    · have hw' : seen.contains w.date := by simpa using hw
      rw [dedupByDate, if_pos hw'] at h
      obtain ⟨hnot, hfind⟩ := ih h
      refine ⟨hnot, ?_⟩
      rw [List.find?_cons_of_neg, hfind]
      simp only [beq_iff_eq]
      intro hEq
      exact hnot (hEq ▸ hw)
    · have hw' : ¬ seen.contains w.date := by simpa using hw
      rw [dedupByDate, if_neg hw'] at h
      rcases List.mem_cons.mp h with hv | hv
      · subst hv
        refine ⟨hw, ?_⟩
        rw [List.find?_cons_of_pos]
        simp
      · obtain ⟨hnot, hfind⟩ := ih hv
        have hne : v.date ≠ w.date := by
          intro hEq
          exact hnot (by simp [hEq])
        refine ⟨fun hv2 => hnot (List.mem_cons_of_mem _ hv2), ?_⟩
        rw [List.find?_cons_of_neg, hfind]
        simpa using Ne.symm hne

theorem pairwise_dedupByDate (seen : List String) (l : List BusinessVisit) :
    (dedupByDate seen l).Pairwise (fun a b => a.date ≠ b.date) := by
  induction l generalizing seen with
  | nil => simp [dedupByDate]
  | cons w ws ih =>
    by_cases hw : seen.contains w.date
    · rw [dedupByDate, if_pos hw]
      exact ih seen
    · rw [dedupByDate, if_neg hw]
      refine List.pairwise_cons.mpr ⟨?_, ih (w.date :: seen)⟩
      intro u hu hEq
      have := (mem_dedupByDate hu).1
      exact this (by simp [hEq])

theorem insertByDate_perm (v : BusinessVisit) (l : List BusinessVisit) :
    List.Perm (insertByDate v l) (v :: l) := by
  induction l with
  | nil => rfl
  | cons w ws ih =>
    by_cases hlt : v.date < w.date
    · rw [insertByDate, if_pos hlt]
    · rw [insertByDate, if_neg hlt]
      exact List.Perm.trans (List.Perm.cons w ih) (List.Perm.swap v w ws)

theorem sortByDate_perm (l : List BusinessVisit) :
    List.Perm (sortByDate l) l := by
  induction l with
  | nil => rfl
  | cons v vs ih =>
    exact List.Perm.trans (insertByDate_perm v (sortByDate vs)) (List.Perm.cons v ih)

theorem analyzeTimeline_characterization (hav : HavFn) (route : RouteFn)
    (cfg : BusinessAnalyzerConfig) (timelineData : TimelineData)
    (segs : List TimelineSegment) (hgather : gatherSegments timelineData = some segs) :
    analyzeTimeline hav route cfg timelineData =
      sortByDate (dedupByDate []
        (segs.filterMap (segMatch hav cfg (preCalculateDistances hav route cfg)))) := by
  unfold analyzeTimeline
  rw [hgather]
  dsimp only
  rw [analyzeFold_characterization hav cfg segs
    { cache := preCalculateDistances hav route cfg, visitedDates := [], visits := [] }
    (fun loc hl => preCalculateDistances_isSome hav route cfg loc hl)]
  rfl

theorem gatherSegments_none_of_empty (timelineData : TimelineData)
    (h1 : timelineData.semanticSegments.getD [] = [])
    (h2 : timelineData.timelineObjects.getD [] = []) :
    gatherSegments timelineData = none := by
  unfold gatherSegments gatherSegments.gatherLegacySegments
  rcases hss : timelineData.semanticSegments with _ | ss
  · rcases hto : timelineData.timelineObjects with _ | tos
    · rfl
    · have : tos = [] := by simpa [hto] using h2
      simp [this]
  · have hssnil : ss = [] := by simpa [hss] using h1
    rcases hto : timelineData.timelineObjects with _ | tos
    · simp [hssnil]
    · have : tos = [] := by simpa [hto] using h2
      simp [hssnil, this]

theorem segMatch_some_structure {hav : HavFn} {cfg : BusinessAnalyzerConfig}
    {cache : Cache} {segment : TimelineSegment} {v : BusinessVisit}
    (h : segMatch hav cfg cache segment = some v) :
    v.businessLocation ∈ cfg.businessLocations ∧
    v.homeLocation = cfg.homeLocation ∧
    v.distanceKm = (getCachedDistance hav cfg cache v.businessLocation.name).1 ∧
    v.travelReason = v.businessLocation.travelReason ∧
    v.taxDeductibleCosts = v.distanceKm * cfg.costPerKm.getD 0 * 2 ∧
    extractDateFromSegment segment = some v.date ∧
    isTargetYear cfg v.date = true := by
  unfold segMatch at h
  rcases hfind : (extractCoordinatesFromSegment segment).findSome?
      (fun coord => findMatchingBusinessLocation hav coord.lat coord.lon cfg.businessLocations)
    with _ | matchingLocation
  · rw [hfind] at h
    exact absurd h (by simp)
  · rw [hfind] at h
    dsimp only at h
    rcases hdate : extractDateFromSegment segment with _ | d
    · rw [hdate] at h
      exact absurd h (by simp)
    · rw [hdate] at h
      dsimp only at h
      by_cases hyear : isTargetYear cfg d
      · rw [if_pos hyear] at h
        obtain ⟨coord, hcmem, hco⟩ := List.exists_of_findSome?_eq_some hfind
        have hmem := findMatching_mem hco
        cases h.symm
        exact ⟨hmem, rfl, rfl, rfl, rfl, rfl, hyear⟩
      · rw [if_neg hyear] at h
        exact absurd h (by simp)

theorem mem_filterMap_segMatch {hav : HavFn} {cfg : BusinessAnalyzerConfig}
    {cache : Cache} {segs : List TimelineSegment} {v : BusinessVisit}
    (h : v ∈ segs.filterMap (segMatch hav cfg cache)) :
    ∃ segment ∈ segs, segMatch hav cfg cache segment = some v := by
  obtain ⟨segment, hs, hm⟩ := List.mem_filterMap.mp h
  exact ⟨segment, hs, hm⟩

theorem analyzeTimeline_of_gather_none (hav : HavFn) (route : RouteFn)
    (cfg : BusinessAnalyzerConfig) (timelineData : TimelineData)
    (hg : gatherSegments timelineData = none) :
    analyzeTimeline hav route cfg timelineData = [] := by
  unfold analyzeTimeline
  rw [hg]

theorem mem_analyzeTimeline {hav : HavFn} {route : RouteFn}
    {cfg : BusinessAnalyzerConfig} {timelineData : TimelineData} {v : BusinessVisit}
    (h : v ∈ analyzeTimeline hav route cfg timelineData) :
    ∃ segs, gatherSegments timelineData = some segs ∧
      v ∈ dedupByDate []
        (segs.filterMap (segMatch hav cfg (preCalculateDistances hav route cfg))) := by
  rcases hg : gatherSegments timelineData with _ | segs
  · rw [analyzeTimeline_of_gather_none hav route cfg timelineData hg] at h
    cases h
  · rw [analyzeTimeline_characterization hav route cfg timelineData segs hg] at h
    exact ⟨segs, rfl, (sortByDate_perm _).mem_iff.mp h⟩

/-! ## Claim theorems

Core `Rat` arithmetic is irreducible by default; making it semireducible in
this file lets `decide` evaluate the model on the concrete witness data. -/

attribute [local semireducible] Rat.add Rat.mul Rat.ofScientific Rat.inv Rat.sub

/-- C2: Matcher first-wins — for every coordinate point and ordered candidate
list, `findMatchingBusinessLocation` returns the first candidate in list
order whose distance to the point (as computed by the analyzer's great-circle
oracle, called as `hav loc.lat loc.lon lat lon`) is at most that candidate's
`radius_km` (that is exactly `List.find?`), and it returns `none` when no
candidate qualifies — in particular on the empty list — without error
(totality of the model). -/
theorem findMatchingBusinessLocation_first_wins (hav : HavFn) (lat lon : ℚ)
    (locations : List RelevantLocation) :
    findMatchingBusinessLocation hav lat lon locations =
      locations.find? (fun loc => decide (hav loc.lat loc.lon lat lon ≤ loc.radius_km)) ∧
    findMatchingBusinessLocation hav lat lon [] = none :=
  ⟨findMatching_eq_find hav lat lon locations, rfl⟩

/-- C1: One visit per day — the visit list `analyzeTimeline` returns contains
at most one visit per calendar-day string (pairwise distinct dates), and the
visit carrying a given date is exactly the first visit, in segment input
order, that any segment of that day generates (`List.find?` over the
per-segment visit stream): deduplication is keyed on the date alone, hence
global across business locations. -/
theorem analyzeTimeline_one_visit_per_day (hav : HavFn) (route : RouteFn)
    (cfg : BusinessAnalyzerConfig) (timelineData : TimelineData) :
    (analyzeTimeline hav route cfg timelineData).Pairwise (fun a b => a.date ≠ b.date) ∧
    (∀ segs, gatherSegments timelineData = some segs →
      ∀ v ∈ analyzeTimeline hav route cfg timelineData,
        (segs.filterMap (segMatch hav cfg (preCalculateDistances hav route cfg))).find?
          (fun w => w.date == v.date) = some v) := by
  constructor
  · rcases hg : gatherSegments timelineData with _ | segs
    · rw [analyzeTimeline_of_gather_none hav route cfg timelineData hg]
      exact List.Pairwise.nil
    · rw [analyzeTimeline_characterization hav route cfg timelineData segs hg]
      refine ((sortByDate_perm _).pairwise_iff ?_).mpr (pairwise_dedupByDate _ _)
      intro a b hab
      exact fun hEq => hab hEq.symm
  · intro segs hg v hv
    rw [analyzeTimeline_characterization hav route cfg timelineData segs hg] at hv
    exact (mem_dedupByDate ((sortByDate_perm _).mem_iff.mp hv)).2

/-- C3: Cache completeness with fallback — after `preCalculateDistances` for
a non-empty business-location list (whose names are pairwise distinct, the
spec's data-model invariant on `NamedLocation`), every location's name has a
cache entry, and every location whose routing lookup fails (explicit error
result or thrown exception) is cached with the haversine great-circle
distance from home; the failure is consumed inside the resolver (the model
is a total function). -/
theorem preCalculateDistances_complete_with_fallback (hav : HavFn) (route : RouteFn)
    (cfg : BusinessAnalyzerConfig)
    (_hne : cfg.businessLocations ≠ [])
    (hnames : cfg.businessLocations.Pairwise (fun a b => a.name ≠ b.name)) :
    ∀ loc ∈ cfg.businessLocations,
      (∃ d, preCalculateDistances hav route cfg loc.name = some d) ∧
      (routeFailed (route { lat := cfg.homeLocation.lat, lon := cfg.homeLocation.lon }
          { lat := loc.lat, lon := loc.lon } (cfg.routeProfile.getD defaultRouteProfile)) = true →
        preCalculateDistances hav route cfg loc.name =
          some (hav cfg.homeLocation.lat cfg.homeLocation.lon loc.lat loc.lon)) := by
  intro loc hl
  have hlook := preCalculateDistances_lookup hav route cfg loc hl hnames
  refine ⟨⟨_, hlook⟩, ?_⟩
  intro hfail
  rw [hlook]
  unfold resolvedDistance
  rcases hr : route { lat := cfg.homeLocation.lat, lon := cfg.homeLocation.lon }
      { lat := loc.lat, lon := loc.lon } (cfg.routeProfile.getD defaultRouteProfile)
    with m | meters | _
  · rfl
  · rw [hr] at hfail
    exact absurd hfail (by simp [routeFailed])
  · rfl

/-- C4: Tax-cost formula — every visit `analyzeTimeline` returns has
`taxDeductibleCosts = distanceKm * costPerKm * 2` with the configured
cost-per-kilometer rate and the fixed round-trip multiplier `2` (a literal in
the code, not per-location data), and its `distanceKm` is exactly the cached
distance stored under the matched location's name. -/
theorem analyzeTimeline_tax_cost_formula (hav : HavFn) (route : RouteFn)
    (cfg : BusinessAnalyzerConfig) (timelineData : TimelineData) (c : ℚ)
    (hc : cfg.costPerKm = some c) :
    ∀ v ∈ analyzeTimeline hav route cfg timelineData,
      v.taxDeductibleCosts = v.distanceKm * c * 2 ∧
      preCalculateDistances hav route cfg v.businessLocation.name = some v.distanceKm := by
  intro v hv
  obtain ⟨segs, hg, hvd⟩ := mem_analyzeTimeline hv
  obtain ⟨segment, hsm, hm⟩ :=
    mem_filterMap_segMatch (List.mem_of_find?_eq_some (mem_dedupByDate hvd).2)
  obtain ⟨hbl, _, hdist, _, hcost, _, _⟩ := segMatch_some_structure hm
  obtain ⟨d0, hd0⟩ :=
    Option.isSome_iff_exists.mp (preCalculateDistances_isSome hav route cfg _ hbl)
  have hget := getCachedDistance_of_cached hav cfg hd0
  constructor
  · rw [hcost, hc]
    rfl
  · rw [hdist, hget]
    exact hd0

/-- C5: Year filter — every visit returned is dated in the target year (its
`YYYY-MM-DD` date string's year equals `targetYear`), and a segment whose
derived date has any other year generates no visit at all (`segMatch` is
`none`), even when a coordinate matches a business location; the comparison
is exactly between the derived date's year and `targetYear`
(`isTargetYear`). -/
theorem analyzeTimeline_year_filter (hav : HavFn) (route : RouteFn)
    (cfg : BusinessAnalyzerConfig) (timelineData : TimelineData) :
    (∀ v ∈ analyzeTimeline hav route cfg timelineData,
      getFullYear v.date = some cfg.targetYear) ∧
    (∀ (cache : Cache) (segment : TimelineSegment) (d : String),
      extractDateFromSegment segment = some d →
      getFullYear d ≠ some cfg.targetYear →
      segMatch hav cfg cache segment = none) := by
  constructor
  · intro v hv
    obtain ⟨segs, hg, hvd⟩ := mem_analyzeTimeline hv
    obtain ⟨segment, hsm, hm⟩ :=
      mem_filterMap_segMatch (List.mem_of_find?_eq_some (mem_dedupByDate hvd).2)
    have hyear := (segMatch_some_structure hm).2.2.2.2.2.2
    simpa [isTargetYear] using hyear
  · intro cache segment d hdate hyear
    unfold segMatch
    rcases hfind : (extractCoordinatesFromSegment segment).findSome?
        (fun coord => findMatchingBusinessLocation hav coord.lat coord.lon cfg.businessLocations)
      with _ | loc
    · simp [hfind]
    · simp [hfind, hdate, isTargetYear, hyear]

/-- C6: Empty/unsupported export — when the document has neither a non-empty
`semanticSegments` list nor a non-empty `timelineObjects` list (for example
`{}`), `analyzeTimeline` returns the empty visit list (and, being a total
function, does not throw). -/
theorem analyzeTimeline_empty_export (hav : HavFn) (route : RouteFn)
    (cfg : BusinessAnalyzerConfig) (timelineData : TimelineData)
    (h1 : timelineData.semanticSegments.getD [] = [])
    (h2 : timelineData.timelineObjects.getD [] = []) :
    analyzeTimeline hav route cfg timelineData = [] :=
  analyzeTimeline_of_gather_none hav route cfg timelineData
    (gatherSegments_none_of_empty timelineData h1 h2)

/-- C7: Cache-read contract — `getCachedDistance` always returns a number
(by its type, never a missing value): on a cache hit it returns the cached
entry and leaves the cache unchanged; on a miss whose name is that of a
configured business location it computes the haversine great-circle distance
from home to that location, stores it in the cache, and returns it. -/
theorem getCachedDistance_contract (hav : HavFn) (cfg : BusinessAnalyzerConfig)
    (cache : Cache) (name : String) :
    (∀ d, cache name = some d → getCachedDistance hav cfg cache name = (d, cache)) ∧
    (∀ loc, cache name = none →
      cfg.businessLocations.find? (fun l => l.name == name) = some loc →
      getCachedDistance hav cfg cache name =
        (hav cfg.homeLocation.lat cfg.homeLocation.lon loc.lat loc.lon,
         cacheSet cache name (hav cfg.homeLocation.lat cfg.homeLocation.lon loc.lat loc.lon))) := by
  constructor
  · intro d hd
    exact getCachedDistance_of_cached hav cfg hd
  · intro loc hnone hfind
    simp [getCachedDistance, hnone, hfind]

/-- C9: Implicit sentinel on unknown name — when the name is neither cached
nor the name of any configured business location, `getCachedDistance`
returns `0` and leaves the cache unchanged (no exception, no missing value,
no fallback computation): `0` is an undocumented sentinel value of the read
path. -/
theorem getCachedDistance_unknown_name_sentinel (hav : HavFn)
    (cfg : BusinessAnalyzerConfig) (cache : Cache) (name : String)
    (h1 : cache name = none)
    (h2 : ∀ loc ∈ cfg.businessLocations, loc.name ≠ name) :
    getCachedDistance hav cfg cache name = (0, cache) := by
  have hfind : cfg.businessLocations.find? (fun l => l.name == name) = none := by
    rw [List.find?_eq_none]
    intro loc hl
    simpa using h2 loc hl
  simp [getCachedDistance, h1, hfind]

/-- C8: Parser round-trip — the scaled-integer string
`latE7:525000000,lngE7:134000000` parses to `(52.5, 13.4)` (each signed E7
integer divided by `10^7`), the decimal-degree string `52.5000°, 13.4000°`
parses to the same coordinate, and on a string matching both encodings the
scaled-integer pattern wins, showing it is tried first. -/
theorem parseCoordinateString_round_trip :
    parseCoordinateString e7String = some { lat := 52.5, lon := 13.4 } ∧
    parseCoordinateString decimalString = some { lat := 52.5, lon := 13.4 } ∧
    parseCoordinateString bothString = some { lat := 1, lon := 2 } := by
  refine ⟨by decide, by decide, by decide⟩

/-- C10: No range validation in the parser — the string `999.0°, 500.0°`
parses to a coordinate with latitude `999 ∉ [-90, 90]` and longitude
`500 ∉ [-180, 180]`: whatever matches one of the two recognized patterns is
returned as parsed, with no range check. -/
theorem parseCoordinateString_no_range_validation :
    parseCoordinateString outOfRangeString = some { lat := 999, lon := 500 } ∧
    ¬ ((999 : ℚ) ≤ 90) ∧ ¬ ((500 : ℚ) ≤ 180) := by
  refine ⟨by decide, by decide, by decide⟩

/-! ## Witnesses: the claim theorems applied to the concrete scenario -/

/-- Witness for C1: in the three-segment scenario the output has pairwise
distinct dates, and its 2024-03-15 visit is the first visit that day's
segments generate. -/
theorem analyzeTimeline_one_visit_per_day_witness :
    (analyzeTimeline havW routeW cfgW tdW).Pairwise (fun a b => a.date ≠ b.date) ∧
    (segsW.filterMap (segMatch havW cfgW (preCalculateDistances havW routeW cfgW))).find?
      (fun w => w.date == visW.date) = some visW :=
  ⟨(analyzeTimeline_one_visit_per_day havW routeW cfgW tdW).1,
   (analyzeTimeline_one_visit_per_day havW routeW cfgW tdW).2 segsW (by decide) visW (by decide)⟩

/-- Witness for C3: with a routing stub that fails exactly for `locD`, its
cache entry exists and equals the haversine fallback. -/
theorem preCalculateDistances_complete_with_fallback_witness :
    (∃ d, preCalculateDistances havW routeF cfgF locD.name = some d) ∧
    preCalculateDistances havW routeF cfgF locD.name =
      some (havW cfgF.homeLocation.lat cfgF.homeLocation.lon locD.lat locD.lon) :=
  ⟨(preCalculateDistances_complete_with_fallback havW routeF cfgF (by decide) (by decide)
      locD (by decide)).1,
   (preCalculateDistances_complete_with_fallback havW routeF cfgF (by decide) (by decide)
      locD (by decide)).2 (by decide)⟩

/-- Witness for C4: the scenario's visit has cost 30 = 5 * 3 * 2 and its
distance is the cached one. -/
theorem analyzeTimeline_tax_cost_formula_witness :
    visW.taxDeductibleCosts = visW.distanceKm * 3 * 2 ∧
    preCalculateDistances havW routeW cfgW visW.businessLocation.name = some visW.distanceKm :=
  analyzeTimeline_tax_cost_formula havW routeW cfgW tdW 3 (by decide) visW (by decide)

/-- Witness for C5: the scenario's visit is dated in 2024, and the
2023-dated `seg3` generates no visit despite its matching coordinate. -/
theorem analyzeTimeline_year_filter_witness :
    getFullYear visW.date = some cfgW.targetYear ∧
    segMatch havW cfgW cacheW seg3 = none :=
  ⟨(analyzeTimeline_year_filter havW routeW cfgW tdW).1 visW (by decide),
   (analyzeTimeline_year_filter havW routeW cfgW tdW).2 cacheW seg3 date2023
     (by decide) (by decide)⟩

/-- Witness for C6: the `{}` export yields the empty visit list. -/
theorem analyzeTimeline_empty_export_witness :
    analyzeTimeline havW routeW cfgW tdEmpty = [] :=
  analyzeTimeline_empty_export havW routeW cfgW tdEmpty rfl rfl

/-- Witness for C7: a cache hit is returned unchanged; a miss on the
configured name `B` computes, stores and returns the haversine fallback. -/
theorem getCachedDistance_contract_witness :
    getCachedDistance havW cfgW cacheOneA nameA = (5, cacheOneA) ∧
    getCachedDistance havW cfgW cacheOneA nameB =
      (havW cfgW.homeLocation.lat cfgW.homeLocation.lon locB.lat locB.lon,
       cacheSet cacheOneA nameB
         (havW cfgW.homeLocation.lat cfgW.homeLocation.lon locB.lat locB.lon)) :=
  ⟨(getCachedDistance_contract havW cfgW cacheOneA nameA).1 5 (by decide),
   (getCachedDistance_contract havW cfgW cacheOneA nameB).2 locB (by decide) (by decide)⟩

/-- Witness for C9: the unknown name `Z` yields the sentinel `0` and an
unchanged cache. -/
theorem getCachedDistance_unknown_name_sentinel_witness :
    getCachedDistance havW cfgW cacheOneA nameZ = (0, cacheOneA) :=
  getCachedDistance_unknown_name_sentinel havW cfgW cacheOneA nameZ (by decide) (by decide)
